import Mathlib

/-!
Shallow embedding of the win-acl-rs crate (src/lib.rs, src/sid.rs, src/acl.rs,
src/sd.rs, src/elevated.rs).  Native Windows calls are external collaborators;
each one is modelled either by its documented semantics on explicit byte
buffers (GetLengthSid, IsValidSid, the ACL primitives) or by an oracle record
supplying the outcome of each fallible call.  Machine integers are Nat; byte
buffers are List Nat; wide strings are List Nat of UTF-16 code units.
Functions that allocate or free native memory additionally return the list of
pointers they freed, so that leak / double-free claims are statable.
-/

set_option maxRecDepth 100000

namespace WinAcl

/-- Windows error codes used by the crate (windows-sys constants). -/
def ERROR_SUCCESS : Nat := 0

def ERROR_OUTOFMEMORY : Nat := 14

def ERROR_INVALID_PARAMETER : Nat := 87

def ERROR_INSUFFICIENT_BUFFER : Nat := 122

def ERROR_NOT_ALL_ASSIGNED : Nat := 1300

def ERROR_INVALID_SID : Nat := 1337

def ERROR_ALLOTTED_SPACE_EXCEEDED : Nat := 1344

/-- lib.rs WinError: the one error type; carries the native numeric code and
an optional descriptive message. -/
structure WinError where
  code : Nat
  message : Option String
deriving DecidableEq, Repr

/-- elevated.rs: the two privilege levels of the typestate, reified as values
(the Rust phantom type parameter P, erased at runtime, carried here as data). -/
inductive PrivilegeLevel where
  | Unprivileged : PrivilegeLevel
  | Elevated : PrivilegeLevel
deriving DecidableEq, Repr

/-- sid.rs Sid: an owned byte buffer holding the native SID encoding. -/
structure Sid where
  data : List Nat
deriving DecidableEq, Repr

/-- Native model of GetLengthSid: reads the SubAuthorityCount byte at offset 1
and returns 8 + 4 * count.  GetLengthSid performs no validation. -/
def GetLengthSidBytes (b : List Nat) : Nat :=
  8 + 4 * b.getD 1 0

/-- Native model of IsValidSid: revision byte is 1, at most 15 sub-authorities,
and the buffer holds the full declared length. -/
def IsValidSidBytes (b : List Nat) : Bool :=
  b.getD 0 0 == 1 && b.getD 1 0 ≤ 15 && 8 + 4 * b.getD 1 0 ≤ b.length

/-- sid.rs Sid::from_bytes: wraps a copy of the raw bytes.  The Rust body is
`Ok(Self { data: bytes.to_vec() })` - it can never fail. -/
def Sid.from_bytes (bytes : List Nat) : Except WinError Sid :=
  .ok { data := bytes }

/-- Oracle for the native calls made by Sid::from_string:
ConvertStringSidToSidW either yields the SID bytes at the allocated pointer or
fails with the given last-error code. -/
structure SidEnv where
  convertStringSid : String → Option (List Nat)
  convertErr : Nat

/-- sid.rs Sid::from_string: native string-to-SID conversion, then copies
GetLengthSid bytes out of the returned allocation and frees it. -/
def Sid.from_string (env : SidEnv) (s : String) : Except WinError Sid :=
  match env.convertStringSid s with
  | none => .error { code := env.convertErr, message := none }
  | some bytes => .ok { data := bytes.take (GetLengthSidBytes bytes) }

/-- acl.rs: sizes of the native structures involved in ACL layout
(ACE_HEADER is 4 bytes; a u32 mask is 4 bytes; the ACL header is 8 bytes;
ACCESS_ALLOWED_ACE is 12 bytes including the 4-byte SidStart stub). -/
def ACE_HEADER_SIZE : Nat := 4

def U32_SIZE : Nat := 4

def SIZEOF_ACL : Nat := 8

def SIZEOF_ACCESS_ALLOWED_ACE : Nat := 12

/-- acl.rs Ace: a borrowed view over one entry's bytes (header, mask,
embedded SID).  Modelled as the entry's byte buffer. -/
structure Ace where
  bytes : List Nat
deriving DecidableEq, Repr

/-- acl.rs Ace::sid: offset to SidStart is sizeof(ACE_HEADER) + sizeof(u32);
reads GetLengthSid bytes from there and wraps them via Sid::from_bytes. -/
def Ace.sid (ace : Ace) : Except WinError Sid :=
  let sid_offset := ACE_HEADER_SIZE + U32_SIZE
  let sidStart := ace.bytes.drop sid_offset
  let len := GetLengthSidBytes sidStart
  Sid.from_bytes (sidStart.take len)

/-- acl.rs Ace::mask: the u32 read at offset sizeof(ACE_HEADER); modelled as
the little-endian value of the four bytes there. -/
def Ace.mask (ace : Ace) : Nat :=
  let b := ace.bytes.drop ACE_HEADER_SIZE
  b.getD 0 0 + 256 * b.getD 1 0 + 65536 * b.getD 2 0 + 16777216 * b.getD 3 0

/-- One entry stored inside a native ACL: type tag (0 allowed, 1 denied,
2 audit), access mask, and the embedded SID bytes. -/
structure AceRec where
  aceType : Nat
  mask : Nat
  sidBytes : List Nat
deriving DecidableEq, Repr

/-- Bytes one entry occupies when appended by AddAccessAllowed/DeniedAce:
sizeof(ACCESS_ALLOWED_ACE) - sizeof(u32) + GetLengthSid(sid). -/
def aceRecSize (a : AceRec) : Nat :=
  SIZEOF_ACCESS_ALLOWED_ACE - U32_SIZE + a.sidBytes.length

/-- Native model of an initialized ACL buffer: the AclSize recorded by
InitializeAcl and the entries appended so far. -/
structure NativeAcl where
  aclSize : Nat
  aces : List AceRec
deriving DecidableEq, Repr

/-- Native model of the ACL header's AclBytesInUse field. -/
def NativeAcl.bytesInUse (n : NativeAcl) : Nat :=
  SIZEOF_ACL + (n.aces.map aceRecSize).sum

/-- acl.rs Acl: pointer to the native ACL (here the modelled buffer) plus the
ownership flag. -/
structure Acl where
  native : NativeAcl
  owned : Bool
deriving DecidableEq, Repr

/-- Oracle for the two fallible native calls in Acl::with_capacity:
LocalAlloc (none = null pointer) and InitializeAcl. -/
structure AclEnv where
  allocPtr : Option Nat
  initOk : Bool
  initErr : Nat
deriving Repr

/-- acl.rs Acl::with_capacity: the size estimate
sizeof(ACL) + ace_count * (sizeof(ACCESS_ALLOWED_ACE) + sid_max_len). -/
def aclEstimatedSize (ace_count sid_max_len : Nat) : Nat :=
  SIZEOF_ACL + ace_count * (SIZEOF_ACCESS_ALLOWED_ACE + sid_max_len)

/-- acl.rs Acl::with_capacity: LocalAlloc, then InitializeAcl; on a null
allocation returns ERROR_OUTOFMEMORY; on init failure the cleanup block frees
the buffer (assert_free) before returning the native error.  Second component:
pointers freed during the call. -/
def Acl.with_capacity (env : AclEnv) (ace_count sid_max_len : Nat) :
    Except WinError Acl × List Nat :=
  match env.allocPtr with
  | none => (.error { code := ERROR_OUTOFMEMORY, message := none }, [])
  | some p =>
    if env.initOk then
      (.ok { native := { aclSize := aclEstimatedSize ace_count sid_max_len, aces := [] },
             owned := true }, [])
    else
      (.error { code := env.initErr, message := none }, [p])

/-- acl.rs Acl::empty: delegates to with_capacity with the fixed defaults
DEFAULT_ACE_CAPACITY = 8 and DEFAULT_SID_MAX_LEN = 128. -/
def Acl.empty (env : AclEnv) : Except WinError Acl × List Nat :=
  Acl.with_capacity env 8 128

/-- acl.rs Acl::new: delegates to Acl::empty. -/
def Acl.new (env : AclEnv) : Except WinError Acl × List Nat :=
  Acl.empty env

/-- Native model of AddAccessAllowedAce / AddAccessDeniedAce: validates the
SID, checks that the new entry fits in the remaining buffer space, and appends
it; on failure yields the native error code. -/
def addAceNative (n : NativeAcl) (aceType mask : Nat) (sid : List Nat) :
    Except Nat NativeAcl :=
  if IsValidSidBytes sid then
    if n.bytesInUse + (SIZEOF_ACCESS_ALLOWED_ACE - U32_SIZE + sid.length) ≤ n.aclSize then
      .ok { n with aces := n.aces ++ [{ aceType := aceType, mask := mask, sidBytes := sid }] }
    else
      .error ERROR_ALLOTTED_SPACE_EXCEEDED
  else
    .error ERROR_INVALID_SID

/-- acl.rs Acl::allow: AddAccessAllowedAce via winapi_bool_call!; a native
failure is surfaced as Err(GetLastError). -/
def Acl.allow (acl : Acl) (access_mask : Nat) (sid : List Nat) :
    Except WinError Acl :=
  match addAceNative acl.native 0 access_mask sid with
  | .ok n => .ok { acl with native := n }
  | .error c => .error { code := c, message := none }

/-- acl.rs Acl::deny: AddAccessDeniedAce via winapi_bool_call!. -/
def Acl.deny (acl : Acl) (access_mask : Nat) (sid : List Nat) :
    Except WinError Acl :=
  match addAceNative acl.native 1 access_mask sid with
  | .ok n => .ok { acl with native := n }
  | .error c => .error { code := c, message := none }

/-- Native model of DeleteAce: removes the entry at the index if it is in
range, otherwise fails. -/
def deleteAceNative (n : NativeAcl) (i : Nat) : Option NativeAcl :=
  if i < n.aces.length then
    some { n with aces := n.aces.take i ++ n.aces.drop (i + 1) }
  else
    none

/-- acl.rs Acl::remove_ace: DeleteAce via winapi_bool_call!; an out-of-range
index is surfaced as the native error. -/
def Acl.remove_ace (acl : Acl) (index : Nat) : Except WinError Acl :=
  match deleteAceNative acl.native index with
  | some n => .ok { acl with native := n }
  | none => .error { code := ERROR_INVALID_PARAMETER, message := none }

/-- Native model of GetAclInformation(AclSizeInformation): on success writes
the entry count; the Bool oracle argument is the call's success flag. -/
def getAclInformationNative (n : NativeAcl) (callOk : Bool) : Option Nat :=
  if callOk then some n.aces.length else none

/-- acl.rs Acl::ace_count: zero-initializes an ACL_SIZE_INFORMATION, calls
GetAclInformation and returns info.AceCount without checking the call's
result - on a failed call the struct keeps its zeroed AceCount. -/
def Acl.ace_count (acl : Acl) (callOk : Bool) : Nat :=
  match getAclInformationNative acl.native callOk with
  | some c => c
  | none => 0

/-- acl.rs IntoIterator for &Acl: queries GetAclInformation, and on a failed
call explicitly returns an iterator with count 0 (the TODO branch); the
iterator's captured count is modelled. -/
def Acl.intoIterCount (acl : Acl) (callOk : Bool) : Nat :=
  match getAclInformationNative acl.native callOk with
  | some c => c
  | none => 0

/-- sd.rs OBJECT_SECURITY_INFORMATION flags (windows-sys constants) and the
ObjectSecurityEx helpers built from them. -/
def OWNER_SECURITY_INFORMATION : Nat := 1

def GROUP_SECURITY_INFORMATION : Nat := 2

def DACL_SECURITY_INFORMATION : Nat := 4

def SACL_SECURITY_INFORMATION : Nat := 8

/-- sd.rs ObjectSecurityEx::get_elevated: just the SACL flag. -/
def get_elevated : Nat := SACL_SECURITY_INFORMATION

/-- sd.rs ObjectSecurityEx::get_safe: OWNER | GROUP | DACL, never SACL. -/
def get_safe : Nat :=
  OWNER_SECURITY_INFORMATION ||| GROUP_SECURITY_INFORMATION ||| DACL_SECURITY_INFORMATION

/-- sd.rs ObjectSecurityEx::get_all: get_elevated | get_safe. -/
def get_all : Nat := get_elevated ||| get_safe

/-- sd.rs SecurityDescriptorImpl<P>: the opaque descriptor allocation plus the
four sub-pointers carved from it; privLevel reifies the phantom parameter P.
Pointers are Nats, 0 standing for null. -/
structure SecurityDescriptorImpl where
  privLevel : PrivilegeLevel
  sd_ptr : Nat
  owner_sid_ptr : Nat
  group_sid_ptr : Nat
  dacl_ptr : Nat
  sacl_ptr : Nat
deriving DecidableEq, Repr

/-- Oracle for the native calls made by from_sd_string / as_sd_string.
convertStringToSd maps the wide input (terminator included) to the allocated
descriptor pointer; each getX maps a descriptor pointer to the extracted
sub-pointer (0 = null) or fails; convertSdToString maps a descriptor pointer
and a security-information mask to the returned wide buffer. -/
structure SdEnv where
  convertStringToSd : List Nat → Option Nat
  convertErr : Nat
  getOwner : Nat → Option Nat
  getOwnerErr : Nat
  getGroup : Nat → Option Nat
  getGroupErr : Nat
  getDacl : Nat → Option Nat
  getDaclErr : Nat
  getSacl : Nat → Option Nat
  getSaclErr : Nat
  convertSdToString : Nat → Nat → Option (List Nat)
  convertSdToStringErr : Nat

/-- utils.rs WideCString::new: encode and append the terminating zero. -/
def wideCStringNew (s : List Nat) : List Nat := s ++ [0]

/-- utils.rs WideCString::from_wide_slice: keep code units up to the first 0. -/
def fromWideSlice (buf : List Nat) : List Nat := buf.takeWhile (fun c => c ≠ 0)

/-- sd.rs SecurityDescriptorImpl::<P>::from_sd_string (the impl block is
generic over P, so the privilege level is a caller-chosen argument and no
elevation token appears in the signature): converts the string natively, then
extracts owner, group, DACL and SACL pointers.  Each extraction uses
winapi_bool_call! WITHOUT a cleanup block, so on an extraction failure the
function returns the error without freeing sd_ptr.  Second component: the
pointers freed during the call. -/
def from_sd_string (env : SdEnv) (P : PrivilegeLevel) (sd_string : List Nat) :
    Except WinError SecurityDescriptorImpl × List Nat :=
  match env.convertStringToSd (wideCStringNew sd_string) with
  | none => (.error { code := env.convertErr, message := none }, [])
  | some sdPtr =>
    match env.getOwner sdPtr with
    | none => (.error { code := env.getOwnerErr, message := none }, [])
    | some ownerPtr =>
      match env.getGroup sdPtr with
      | none => (.error { code := env.getGroupErr, message := none }, [])
      | some groupPtr =>
        match env.getDacl sdPtr with
        | none => (.error { code := env.getDaclErr, message := none }, [])
        | some daclPtr =>
          match env.getSacl sdPtr with
          | none => (.error { code := env.getSaclErr, message := none }, [])
          | some saclPtr =>
            (.ok { privLevel := P, sd_ptr := sdPtr, owner_sid_ptr := ownerPtr,
                   group_sid_ptr := groupPtr, dacl_ptr := daclPtr,
                   sacl_ptr := saclPtr }, [])

/-- sd.rs SecurityDescriptorImpl::as_sd_string: native serialization of the
descriptor requesting OBJECT_SECURITY_INFORMATION::get_all() (all four
sections), then decodes the returned buffer truncating at the first zero. -/
def as_sd_string (env : SdEnv) (sd : SecurityDescriptorImpl) :
    Except WinError (List Nat) :=
  match env.convertSdToString sd.sd_ptr get_all with
  | none => .error { code := env.convertSdToStringErr, message := none }
  | some buf => .ok (fromWideSlice buf)

/-- sd.rs Drop for SecurityDescriptorImpl<P>: assert_free!(self.sd_ptr) -
frees the descriptor allocation when the pointer is non-null. -/
def SecurityDescriptorImpl.dropFrees (sd : SecurityDescriptorImpl) : List Nat :=
  if sd.sd_ptr ≠ 0 then [sd.sd_ptr] else []

/-- sd.rs SecurityDescriptorImpl::<Unprivileged>::upgrade: builds the Elevated
struct out of the five pointer fields.  The raw-pointer fields are Copy and
the consumed self is neither destructured nor forgotten, while the type
implements Drop - so the source's destructor runs when upgrade returns,
freeing sd_ptr.  Second component: the pointers freed during the call (the
Drop of the consumed source). -/
def SecurityDescriptorImpl.upgrade (sd : SecurityDescriptorImpl) :
    SecurityDescriptorImpl × List Nat :=
  ({ sd with privLevel := PrivilegeLevel.Elevated }, sd.dropFrees)

/-- Oracle for the native calls inside enable_se_security_privilege:
OpenProcessToken, LookupPrivilegeValueW, AdjustTokenPrivileges, and the
GetLastError value observed after the adjust call. -/
structure TokenEnv where
  openOk : Bool
  openErr : Nat
  lookupOk : Bool
  lookupErr : Nat
  adjustOk : Bool
  adjustErr : Nat
  lastErrAfterAdjust : Nat
deriving Repr

/-- elevated.rs enable_se_security_privilege: each native call is checked via
winapi_bool_call! (with CloseHandle cleanup); after AdjustTokenPrivileges
returns TRUE the code still checks GetLastError and fails unless it is
ERROR_SUCCESS (AdjustTokenPrivileges reports partial failure that way). -/
def enable_se_security_privilege (env : TokenEnv) : Except WinError Unit :=
  if env.openOk = false then .error { code := env.openErr, message := none }
  else if env.lookupOk = false then .error { code := env.lookupErr, message := none }
  else if env.adjustOk = false then .error { code := env.adjustErr, message := none }
  else if env.lastErrAfterAdjust ≠ ERROR_SUCCESS then
    .error { code := env.lastErrAfterAdjust, message := none }
  else .ok ()

/-- elevated.rs PrivilegeTokenImpl<P>: the proof token, with the phantom
privilege level reified. -/
structure PrivilegeTokenImpl where
  level : PrivilegeLevel
deriving DecidableEq, Repr

/-- elevated.rs PrivilegeTokenImpl::<Unprivileged>::try_elevate: calls
enable_se_security_privilege and only on its success returns the Elevated
token. -/
def try_elevate (env : TokenEnv) : Except WinError PrivilegeTokenImpl :=
  match enable_se_security_privilege env with
  | .error e => .error e
  | .ok _ => .ok { level := PrivilegeLevel.Elevated }

/-- sid.rs account::AccountLookup: fully owned name, domain and principal
type. -/
structure AccountLookup where
  name : String
  domain : String
  sidType : Nat
deriving DecidableEq, Repr

/-- Oracle for the native two-call size-then-fill protocol inside
account::lookup_account_name: the last-error after the size probe (must be
ERROR_INSUFFICIENT_BUFFER to continue), the LocalAlloc result, the filling
call, and the SID-to-string conversion of the looked-up SID. -/
structure LookupEnv where
  sizeProbeErr : Nat
  allocPtr : Option Nat
  fillOk : Bool
  fillErr : Nat
  sidString : Option String
  sidStringErr : Nat
  domainStr : String
  sidTypeVal : Nat

/-- sid.rs account::lookup_account_name: size probe (anything but
ERROR_INSUFFICIENT_BUFFER is returned as the error), LocalAlloc (null gives
ERROR_OUTOFMEMORY), the filling LookupAccountNameW call (failure frees the
SID buffer and returns the error), then the looked-up SID is converted to its
string form, which becomes the name field of the result. -/
def lookup_account_name (env : LookupEnv) (_account : String) :
    Except WinError AccountLookup :=
  if env.sizeProbeErr ≠ ERROR_INSUFFICIENT_BUFFER then
    .error { code := env.sizeProbeErr, message := none }
  else
    match env.allocPtr with
    | none => .error { code := ERROR_OUTOFMEMORY, message := none }
    | some _ =>
      if env.fillOk = false then .error { code := env.fillErr, message := none }
      else
        match env.sidString with
        | none => .error { code := env.sidStringErr, message := none }
        | some s => .ok { name := s, domain := env.domainStr, sidType := env.sidTypeVal }

/-- Outcome of running a Rust function that may return, error, or panic. -/
inductive RustOutcome (α : Type) where
  | ok : α → RustOutcome α
  | err : WinError → RustOutcome α
  | panicked : RustOutcome α
deriving DecidableEq, Repr

/-- sid.rs Sid::from_account_name: the body is
lookup_account_name(name).map(|a| Self::from_string(&a.name).unwrap()) - a
lookup failure is returned as the error, but the re-parse of the looked-up SID
string is unwrapped, so a failure of that native conversion panics. -/
def Sid.from_account_name (lenv : LookupEnv) (senv : SidEnv) (name : String) :
    RustOutcome Sid :=
  match lookup_account_name lenv name with
  | .error e => .err e
  | .ok a =>
    match Sid.from_string senv a.name with
    | .ok sid => .ok sid
    | .error _ => .panicked

/-- Encode a Lean string as the list of its UTF-16 code units (all test
strings here are ASCII, so code points coincide with code units). -/
def stringWide (s : String) : List Nat := s.data.map Char.toNat

/-- The round-trip test literal from src/tests.rs (test_sd_strings). -/
def testSdText : List Nat := stringWide "O:S-1-5-21-1402048822-409899687-2319524958-1001G:S-1-5-21-1402048822-409899687-2319524958-1001D:(A;ID;FA;;;SY)(A;ID;FA;;;BA)(A;ID;FA;;;S-1-5-21-1402048822-409899687-2319524958-1001)"

/-- The Everyone SID S-1-1-0 in its native byte encoding: revision 1, one
sub-authority, authority 1, sub-authority 0. -/
def sidEveryone : List Nat := [1, 1, 0, 0, 0, 0, 0, 1, 0, 0, 0, 0]

/-- Claim C10: Acl::new(), Acl::empty() and Acl::with_capacity(8, 128) are
extensionally equal - new delegates to empty, which delegates to
with_capacity with the fixed defaults DEFAULT_ACE_CAPACITY = 8 and
DEFAULT_SID_MAX_LEN = 128, so a fresh empty ACL carries the fixed
pre-allocated byte budget aclEstimatedSize 8 128 = 1128 bytes (room for
roughly 8 entries) against which appends are checked. -/
theorem acl_new_empty_with_capacity_equal :
    (∀ env : AclEnv, Acl.new env = Acl.with_capacity env 8 128) ∧
    (∀ env : AclEnv, Acl.empty env = Acl.with_capacity env 8 128) ∧
    aclEstimatedSize 8 128 = 1128 :=
  ⟨fun _ => rfl, fun _ => rfl, rfl⟩

/-- Claim C2 counterexample: an ACE whose embedded bytes (revision byte 0,
absurd sub-authority count) are not a valid SID, yet Ace::sid returns Ok -
refuting the claim that principal_sid errors whenever the embedded bytes do
not form a valid SID.  Sid::from_bytes wraps the bytes unconditionally. -/
theorem ace_sid_ok_on_invalid_bytes :
    Ace.sid { bytes := [0, 0, 12, 0, 1, 0, 0, 0, 0, 5, 0, 0] } =
      .ok { data := [0, 5, 0, 0] } ∧
    IsValidSidBytes ([0, 0, 12, 0, 1, 0, 0, 0, 0, 5, 0, 0].drop
      (ACE_HEADER_SIZE + U32_SIZE)) = false :=
  ⟨rfl, rfl⟩

/-- Claim C2 amended: Ace::sid always returns Ok holding an owned copy of the
bytes that start immediately after the access-mask field, of the length
GetLengthSid reports there; it never validates them and never returns an
error, because Sid::from_bytes is infallible. -/
theorem ace_sid_always_ok (ace : Ace) :
    Ace.sid ace =
      .ok { data := (ace.bytes.drop (ACE_HEADER_SIZE + U32_SIZE)).take
              (GetLengthSidBytes (ace.bytes.drop (ACE_HEADER_SIZE + U32_SIZE))) } :=
  rfl

/-- A concrete ACL holding two entries, used to evaluate the entry-count
query under a failed native call. -/
def aclTwoEntries : Acl :=
  { native :=
      { aclSize := 1128,
        aces := [{ aceType := 0, mask := 1, sidBytes := sidEveryone },
                 { aceType := 1, mask := 2, sidBytes := sidEveryone }] },
    owned := true }

/-- Claim C4 counterexample: on an ACL holding two entries, when the native
GetAclInformation call fails, Acl::ace_count returns 0 (the zero-initialized
AceCount - the call's result is never checked) and iterator creation likewise
yields a count of 0; both proceed as if the count were zero, and their return
types carry no error at all - refuting the claim that these surface the
failed native call. -/
theorem ace_count_swallows_native_failure :
    Acl.ace_count aclTwoEntries false = 0 ∧
    Acl.intoIterCount aclTwoEntries false = 0 ∧
    aclTwoEntries.native.aces.length = 2 :=
  ⟨rfl, rfl, rfl⟩

/-- Claim C4 amended: Result-returning operations do surface native failures
as WinError values carrying the native code (allow is shown failing on an
invalid SID), but the entry-count query and iterator creation are the
exception: ace_count ignores GetAclInformation's result and reports the
zero-initialized count 0 on failure, and iterator creation maps the failed
query to an empty iterator; neither surfaces an error. -/
theorem ace_count_failure_and_success (acl : Acl) :
    Acl.ace_count acl false = 0 ∧
    Acl.intoIterCount acl false = 0 ∧
    Acl.ace_count acl true = acl.native.aces.length ∧
    Acl.intoIterCount acl true = acl.native.aces.length ∧
    Acl.allow acl 1 [] = .error { code := ERROR_INVALID_SID, message := none } :=
  ⟨rfl, rfl, rfl, rfl, rfl⟩

/-- A concrete parsed Unprivileged descriptor with a non-null allocation and
all four sub-pointers set, used to evaluate upgrade. -/
def c7descriptor : SecurityDescriptorImpl :=
  { privLevel := PrivilegeLevel.Unprivileged, sd_ptr := 1000,
    owner_sid_ptr := 2000, group_sid_ptr := 3000, dacl_ptr := 4000,
    sacl_ptr := 5000 }

/-- Claim C7, code evaluated at the failing input: upgrade does hand the five
pointers over unchanged, but because the consumed source is neither forgotten
nor destructured and the type implements Drop, the source's destructor runs
when upgrade returns and frees the descriptor allocation; dropping the
Elevated result frees it a second time - the allocation is freed twice, not
exactly once. -/
theorem upgrade_frees_allocation_twice :
    (c7descriptor.upgrade.1.privLevel = PrivilegeLevel.Elevated ∧
     c7descriptor.upgrade.1.sd_ptr = c7descriptor.sd_ptr ∧
     c7descriptor.upgrade.1.owner_sid_ptr = c7descriptor.owner_sid_ptr ∧
     c7descriptor.upgrade.1.group_sid_ptr = c7descriptor.group_sid_ptr ∧
     c7descriptor.upgrade.1.dacl_ptr = c7descriptor.dacl_ptr ∧
     c7descriptor.upgrade.1.sacl_ptr = c7descriptor.sacl_ptr) ∧
    c7descriptor.upgrade.2 ++ c7descriptor.upgrade.1.dropFrees = [1000, 1000] := by
  decide

/-- Oracle under which the native string-to-descriptor conversion succeeds
(allocating descriptor 1000) but the owner-extraction call then fails. -/
def c3envLeak : SdEnv :=
  { convertStringToSd := fun _ => some 1000, convertErr := 0,
    getOwner := fun _ => none, getOwnerErr := ERROR_INVALID_PARAMETER,
    getGroup := fun _ => some 0, getGroupErr := 0,
    getDacl := fun _ => some 0, getDaclErr := 0,
    getSacl := fun _ => some 0, getSaclErr := 0,
    convertSdToString := fun _ _ => none, convertSdToStringErr := 0 }

/-- Claim C3, code evaluated at the failing input: when the conversion has
allocated the descriptor and a subsequent field extraction fails,
from_sd_string returns the error having freed nothing (empty free list) - the
descriptor allocation leaks, because the extraction calls use
winapi_bool_call! without a cleanup block.  Acl::with_capacity, by contrast,
does free its buffer when initialization fails. -/
theorem from_sd_string_leaks_on_extraction_failure :
    from_sd_string c3envLeak PrivilegeLevel.Unprivileged [] =
      (.error { code := ERROR_INVALID_PARAMETER, message := none }, []) ∧
    Acl.with_capacity { allocPtr := some 500, initOk := false, initErr := 5 } 8 128 =
      (.error { code := 5, message := none }, [500]) :=
  ⟨rfl, rfl⟩

/-- Oracle under which the native conversion and all four extractions
succeed, allocating descriptor 1000 with null sub-pointers. -/
def c1envOk : SdEnv :=
  { convertStringToSd := fun _ => some 1000, convertErr := 0,
    getOwner := fun _ => some 0, getOwnerErr := 0,
    getGroup := fun _ => some 0, getGroupErr := 0,
    getDacl := fun _ => some 0, getDaclErr := 0,
    getSacl := fun _ => some 0, getSaclErr := 0,
    convertSdToString := fun _ _ => none, convertSdToStringErr := 0 }

/-- Claim C1 counterexample: from_sd_string (and the FromStr impl that
delegates to it) sits in an impl block generic over the privilege level;
instantiated at Elevated it succeeds and returns an Elevated-typed
descriptor, and its signature takes no elevation proof token - refuting the
claim that string parsing always yields SecurityDescriptor of Unprivileged
and can never produce an Elevated one without a token. -/
theorem from_sd_string_can_yield_elevated :
    (from_sd_string c1envOk PrivilegeLevel.Elevated []).1 =
      .ok { privLevel := PrivilegeLevel.Elevated, sd_ptr := 1000,
            owner_sid_ptr := 0, group_sid_ptr := 0, dacl_ptr := 0,
            sacl_ptr := 0 } :=
  rfl

/-- Claim C1 amended: from_sd_string returns a descriptor whose privilege
level is exactly the caller-chosen type parameter P - the SecurityDescriptor
alias defaults P to Unprivileged, so from_descriptor_string on the alias does
yield an Unprivileged descriptor, but the generic impl equally yields an
Elevated one with no elevation token; no privilege level exposes a SACL
accessor in the code. -/
theorem from_sd_string_priv_is_parameter (env : SdEnv) (P : PrivilegeLevel)
    (s : List Nat) (sd : SecurityDescriptorImpl)
    (h : (from_sd_string env P s).1 = .ok sd) :
    sd.privLevel = P := by
  unfold from_sd_string at h
  split at h
  · simp at h
  · split at h
    · simp at h
    · split at h
      · simp at h
      · split at h
        · simp at h
        · split at h
          · simp at h
          · simp only [Except.ok.injEq] at h
            rw [← h]

/-- Claim C1 amended, witness: under the all-success oracle, parsing at the
default Unprivileged level yields a descriptor whose level is Unprivileged. -/
theorem from_sd_string_priv_witness :
    ({ privLevel := PrivilegeLevel.Unprivileged, sd_ptr := 1000,
       owner_sid_ptr := 0, group_sid_ptr := 0, dacl_ptr := 0,
       sacl_ptr := 0 } : SecurityDescriptorImpl).privLevel =
      PrivilegeLevel.Unprivileged :=
  from_sd_string_priv_is_parameter c1envOk PrivilegeLevel.Unprivileged [] _ rfl

/-- Claim C5: try_elevate hands out the Elevated proof token exactly when
every native step succeeded - OpenProcessToken, LookupPrivilegeValueW,
AdjustTokenPrivileges, and the post-adjust GetLastError check (which is how
AdjustTokenPrivileges reports that the privilege was not actually granted);
any token it returns is the Elevated one; and when the three calls succeed
but the post-adjust last error is set, the returned error carries exactly
that native code - never a usable Elevated proof. -/
theorem try_elevate_only_on_full_success (env : TokenEnv) :
    ((∃ t, try_elevate env = .ok t) ↔
      (env.openOk = true ∧ env.lookupOk = true ∧ env.adjustOk = true ∧
       env.lastErrAfterAdjust = ERROR_SUCCESS)) ∧
    (∀ t, try_elevate env = .ok t → t.level = PrivilegeLevel.Elevated) ∧
    (env.openOk = true → env.lookupOk = true → env.adjustOk = true →
      env.lastErrAfterAdjust ≠ ERROR_SUCCESS →
      try_elevate env =
        .error { code := env.lastErrAfterAdjust, message := none }) := by
  obtain ⟨o, oe, l, le, a, ae, g⟩ := env
  unfold try_elevate enable_se_security_privilege
  cases o <;> cases l <;> cases a <;>
    by_cases hg : g = ERROR_SUCCESS <;>
      simp_all [ERROR_SUCCESS]

/-- Oracle for a process lacking administrator rights: every call "succeeds"
but AdjustTokenPrivileges leaves ERROR_NOT_ALL_ASSIGNED as the last error. -/
def tokenEnvDenied : TokenEnv :=
  { openOk := true, openErr := 0, lookupOk := true, lookupErr := 0,
    adjustOk := true, adjustErr := 0,
    lastErrAfterAdjust := ERROR_NOT_ALL_ASSIGNED }

/-- Claim C5 witness: on the rights-denied oracle, try_elevate returns the
error carrying the native code, not a token. -/
theorem try_elevate_witness :
    try_elevate tokenEnvDenied =
      .error { code := ERROR_NOT_ALL_ASSIGNED, message := none } :=
  (try_elevate_only_on_full_success tokenEnvDenied).2.2 rfl rfl rfl (by decide)

/-- Oracle for a successful account lookup resolving to the Everyone SID
string. -/
def c9lookupEnvOk : LookupEnv :=
  { sizeProbeErr := ERROR_INSUFFICIENT_BUFFER, allocPtr := some 1,
    fillOk := true, fillErr := 0, sidString := some "S-1-1-0",
    sidStringErr := 0, domainStr := "BUILTIN", sidTypeVal := 1 }

/-- Oracle under which the native string-to-SID conversion always fails. -/
def c9sidEnvFail : SidEnv :=
  { convertStringSid := fun _ => none, convertErr := ERROR_OUTOFMEMORY }

/-- Claim C9 counterexample: the account lookup succeeds, but the native
re-parse of the looked-up SID string fails, and the unwrap inside
from_account_name panics instead of returning a WinError - refuting the claim
that every failed native call is turned into a returned error value for every
input. -/
theorem from_account_name_panics_on_reparse_failure :
    Sid.from_account_name c9lookupEnvOk c9sidEnvFail "user" =
      RustOutcome.panicked :=
  rfl

/-- Claim C9 amended: from_account_name surfaces a failure of the account
lookup itself as the typed WinError, but re-parses the looked-up SID string
under an unwrap - it panics exactly when the lookup succeeded and that native
string-to-SID conversion failed. -/
theorem from_account_name_panic_characterization (lenv : LookupEnv)
    (senv : SidEnv) (name : String) :
    (Sid.from_account_name lenv senv name = RustOutcome.panicked ↔
      ∃ a, lookup_account_name lenv name = .ok a ∧
        senv.convertStringSid a.name = none) ∧
    (∀ e, lookup_account_name lenv name = .error e →
      Sid.from_account_name lenv senv name = RustOutcome.err e) := by
  constructor
  · unfold Sid.from_account_name
    cases hl : lookup_account_name lenv name with
    | error e => simp
    | ok acc =>
      cases hcv : senv.convertStringSid acc.name with
      | none => simp [Sid.from_string, hcv]
      | some bytes => simp [Sid.from_string, hcv]
  · intro e he
    unfold Sid.from_account_name
    rw [he]

/-- Oracle for a failing account lookup (size probe reports error 5). -/
def c9lookupEnvFail : LookupEnv :=
  { sizeProbeErr := 5, allocPtr := some 1, fillOk := true, fillErr := 0,
    sidString := some "S-1-1-0", sidStringErr := 0, domainStr := "BUILTIN",
    sidTypeVal := 1 }

/-- Claim C9 amended, witness: a failed lookup is returned as the WinError
carrying its native code. -/
theorem from_account_name_err_witness :
    Sid.from_account_name c9lookupEnvFail c9sidEnvFail "user" =
      RustOutcome.err { code := 5, message := none } :=
  (from_account_name_panic_characterization c9lookupEnvFail c9sidEnvFail
    "user").2 { code := 5, message := none } rfl

/-- A successful AddAccessAllowed/DeniedAce appends exactly one entry. -/
theorem addAceNative_ok_aces (n n2 : NativeAcl) (t m : Nat) (s : List Nat)
    (h : addAceNative n t m s = .ok n2) :
    n2.aces = n.aces ++ [{ aceType := t, mask := m, sidBytes := s }] := by
  unfold addAceNative at h
  split_ifs at h
  simp only [Except.ok.injEq] at h
  subst h
  rfl

/-- A successful Acl::allow appends exactly one entry to the native list. -/
theorem allow_ok_aces (acl acl2 : Acl) (m : Nat) (s : List Nat)
    (h : acl.allow m s = .ok acl2) :
    acl2.native.aces =
      acl.native.aces ++ [{ aceType := 0, mask := m, sidBytes := s }] := by
  unfold Acl.allow at h
  cases hn : addAceNative acl.native 0 m s with
  | ok n =>
    rw [hn] at h
    simp only [Except.ok.injEq] at h
    subst h
    exact addAceNative_ok_aces _ _ _ _ _ hn
  | error c =>
    rw [hn] at h
    simp at h

/-- A successful Acl::deny appends exactly one entry to the native list. -/
theorem deny_ok_aces (acl acl2 : Acl) (m : Nat) (s : List Nat)
    (h : acl.deny m s = .ok acl2) :
    acl2.native.aces =
      acl.native.aces ++ [{ aceType := 1, mask := m, sidBytes := s }] := by
  unfold Acl.deny at h
  cases hn : addAceNative acl.native 1 m s with
  | ok n =>
    rw [hn] at h
    simp only [Except.ok.injEq] at h
    subst h
    exact addAceNative_ok_aces _ _ _ _ _ hn
  | error c =>
    rw [hn] at h
    simp at h

/-- A successful Acl::remove_ace removes exactly the indexed entry. -/
theorem remove_ace_ok_aces (acl acl2 : Acl) (i : Nat)
    (h : acl.remove_ace i = .ok acl2) :
    i < acl.native.aces.length ∧
    acl2.native.aces = acl.native.aces.take i ++ acl.native.aces.drop (i + 1) := by
  unfold Acl.remove_ace deleteAceNative at h
  split_ifs at h with hi
  simp only [Except.ok.injEq] at h
  subst h
  exact ⟨hi, rfl⟩

/-- A successful Acl::empty yields the fresh owning ACL with no entries and
the default byte budget. -/
theorem empty_ok_shape (env : AclEnv) (a : Acl)
    (h : (Acl.empty env).1 = .ok a) :
    a.native.aces = [] := by
  unfold Acl.empty Acl.with_capacity at h
  cases hp : env.allocPtr with
  | none => rw [hp] at h; simp at h
  | some p =>
    rw [hp] at h
    split_ifs at h
    simp only [Except.ok.injEq] at h
    subst h
    rfl

/-- Claim C8: entry-count arithmetic - a freshly constructed empty ACL
reports entry count 0; after one successful allow the count is 1; after one
further successful deny it is 2; after a successful remove_ace(1) it is back
to 1 (counts read with the native count query succeeding). -/
theorem entry_count_arithmetic (env : AclEnv) (m1 m2 : Nat) (s1 s2 : List Nat)
    (a0 a1 a2 a3 : Acl)
    (h0 : (Acl.empty env).1 = .ok a0)
    (h1 : a0.allow m1 s1 = .ok a1)
    (h2 : a1.deny m2 s2 = .ok a2)
    (h3 : a2.remove_ace 1 = .ok a3) :
    a0.ace_count true = 0 ∧ a1.ace_count true = 1 ∧
    a2.ace_count true = 2 ∧ a3.ace_count true = 1 := by
  have e0 : a0.native.aces = [] := empty_ok_shape env a0 h0
  have e1 := allow_ok_aces a0 a1 m1 s1 h1
  have e2 := deny_ok_aces a1 a2 m2 s2 h2
  have e3 := remove_ace_ok_aces a2 a3 1 h3
  have c0 : a0.ace_count true = a0.native.aces.length := rfl
  have c1 : a1.ace_count true = a1.native.aces.length := rfl
  have c2 : a2.ace_count true = a2.native.aces.length := rfl
  have c3 : a3.ace_count true = a3.native.aces.length := rfl
  rw [c0, c1, c2, c3, e3.2, e2, e1, e0]
  simp

/-- The all-success allocation oracle for the witness run. -/
def aclEnvOk : AclEnv := { allocPtr := some 1, initOk := true, initErr := 0 }

/-- The four ACL states of the concrete witness run. -/
def aclW0 : Acl := { native := { aclSize := 1128, aces := [] }, owned := true }

def aclW1 : Acl :=
  { native :=
      { aclSize := 1128,
        aces := [{ aceType := 0, mask := 1, sidBytes := sidEveryone }] },
    owned := true }

def aclW2 : Acl :=
  { native :=
      { aclSize := 1128,
        aces := [{ aceType := 0, mask := 1, sidBytes := sidEveryone },
                 { aceType := 1, mask := 2, sidBytes := sidEveryone }] },
    owned := true }

def aclW3 : Acl := aclW1

/-- Claim C8 witness: the concrete run - empty, allow mask 1 for Everyone,
deny mask 2 for Everyone, remove index 1 - produces counts 0, 1, 2, 1. -/
theorem entry_count_arithmetic_witness :
    aclW0.ace_count true = 0 ∧ aclW1.ace_count true = 1 ∧
    aclW2.ace_count true = 2 ∧ aclW3.ace_count true = 1 :=
  entry_count_arithmetic aclEnvOk 1 2 sidEveryone sidEveryone
    aclW0 aclW1 aclW2 aclW3 rfl rfl rfl rfl

/-- Decoding a zero-terminated wide buffer whose payload contains no zero
recovers exactly the payload. -/
theorem fromWideSlice_append_zero (T : List Nat) (hT : ∀ c ∈ T, c ≠ 0) :
    fromWideSlice (T ++ [0]) = T := by
  induction T with
  | nil => rfl
  | cons a t ih =>
    have ha : a ≠ 0 := hT a (by simp)
    have ht : ∀ c ∈ t, c ≠ 0 := fun c hc => hT c (by simp [hc])
    show List.takeWhile _ ((a :: t) ++ [0]) = a :: t
    rw [List.cons_append, List.takeWhile_cons_of_pos (by simpa using ha)]
    exact congrArg (a :: ·) (ih ht)

/-- Claim C6: descriptor-string round-trip.  Hypotheses: the native parser
accepts T (allocating descriptor p), the four extractions succeed, and the
native serializer at the all-sections mask reproduces T's wide encoding (the
bit-structure-preserved condition of the claim).  Then from_sd_string
succeeds and as_sd_string - which requests get_all, i.e. all four sections,
and truncates the returned buffer at its terminator - returns exactly T. -/
theorem sd_string_round_trip (env : SdEnv) (P : PrivilegeLevel) (T : List Nat)
    (p o g d sa : Nat)
    (hT : ∀ c ∈ T, c ≠ 0)
    (hparse : env.convertStringToSd (wideCStringNew T) = some p)
    (ho : env.getOwner p = some o) (hg : env.getGroup p = some g)
    (hd : env.getDacl p = some d) (hs : env.getSacl p = some sa)
    (hser : env.convertSdToString p get_all = some (wideCStringNew T)) :
    (from_sd_string env P T).1 =
      .ok { privLevel := P, sd_ptr := p, owner_sid_ptr := o,
            group_sid_ptr := g, dacl_ptr := d, sacl_ptr := sa } ∧
    as_sd_string env
      { privLevel := P, sd_ptr := p, owner_sid_ptr := o, group_sid_ptr := g,
        dacl_ptr := d, sacl_ptr := sa } = .ok T := by
  constructor
  · unfold from_sd_string
    rw [hparse]
    simp only
    rw [ho]
    simp only
    rw [hg]
    simp only
    rw [hd]
    simp only
    rw [hs]
  · unfold as_sd_string
    rw [hser]
    simp only [Except.ok.injEq]
    exact fromWideSlice_append_zero T hT

/-- Oracle realizing the native round-trip on the test literal: the parser
accepts exactly the literal's wide encoding at descriptor 1000, and the
serializer reproduces it only at descriptor 1000 with the all-sections
mask. -/
def c6env : SdEnv :=
  { convertStringToSd :=
      fun l => if l = wideCStringNew testSdText then some 1000 else none,
    convertErr := 0,
    getOwner := fun _ => some 77, getOwnerErr := 0,
    getGroup := fun _ => some 78, getGroupErr := 0,
    getDacl := fun _ => some 79, getDaclErr := 0,
    getSacl := fun _ => some 0, getSaclErr := 0,
    convertSdToString :=
      fun q m =>
        if q = 1000 ∧ m = get_all then some (wideCStringNew testSdText)
        else none,
    convertSdToStringErr := 0 }

/-- Claim C6 witness: the literal from the crate's round-trip test parses to
a descriptor and serializes back to the identical text. -/
theorem sd_string_round_trip_witness :
    (from_sd_string c6env PrivilegeLevel.Unprivileged testSdText).1 =
      .ok { privLevel := PrivilegeLevel.Unprivileged, sd_ptr := 1000,
            owner_sid_ptr := 77, group_sid_ptr := 78, dacl_ptr := 79,
            sacl_ptr := 0 } ∧
    as_sd_string c6env
      { privLevel := PrivilegeLevel.Unprivileged, sd_ptr := 1000,
        owner_sid_ptr := 77, group_sid_ptr := 78, dacl_ptr := 79,
        sacl_ptr := 0 } = .ok testSdText :=
  sd_string_round_trip c6env PrivilegeLevel.Unprivileged testSdText
    1000 77 78 79 0 (by decide) (by decide) rfl rfl rfl rfl (by decide)

end WinAcl
